import Mathlib

/-!
Shallow embedding of the Telegram utility bot (`main.py`): the in-memory
store (user directory, feedback log, blocklist), the conversation
handlers (registration, feedback, broadcast), the utility menu, and the
broadcast fan-out loop.  Handlers are embedded as pure functions from the
store, the per-user `user_data` dictionary and the event's payload to a
result record holding the new store, new user data, the replies issued to
the acting chat, the messages sent to other chats, and the next
conversation state.  External collaborators (the Telegram transport,
`Config.AUTH_USERS`, the random generator, the clock) are parameters.
-/

/-! ## Conversation state codes (from `range(...)` in main.py) -/

def REGISTER_NAME : Int := 0

def REGISTER_AGE : Int := 1

def REGISTER_DONE : Int := 2

def FEEDBACK_TEXT : Int := 3

def FEEDBACK_CONFIRM : Int := 4

def BROADCAST_TEXT : Int := 5

def BROADCAST_CONFIRM : Int := 6

def UTILITY_MENU : Int := 7

def UTILITY_WAIT_INPUT : Int := 8

/-- `ConversationHandler.END` of python-telegram-bot, the "no active
conversation" state returned by handlers to terminate a flow. -/
def CONV_END : Int := -1

/-! ## Data model -/

/-- `UserProfile` dataclass: id, optional name, optional age, creation time
(`time.time()` modelled as an integer timestamp). -/
structure UserProfile where
  user_id : Int
  name : Option String
  age : Option Int
  created_at : Int
deriving Repr, DecidableEq

/-- `FeedbackEntry` dataclass. -/
structure FeedbackEntry where
  user_id : Int
  username : Option String
  text : String
  created_at : Int
deriving Repr, DecidableEq

/-- `InMemoryStore`: `profiles` is a Python dict keyed by user id,
modelled as an insertion-ordered association list; `feedback` an
append-only list; `blocked_users` a set of ids (as a list, membership up
to duplicates). -/
structure InMemoryStore where
  profiles : List (Int × UserProfile)
  feedback : List FeedbackEntry
  blocked_users : List Int
deriving Repr, DecidableEq

/-- Dict lookup `self.profiles[user_id]` / `user_id in self.profiles`. -/
def lookupProfile (ps : List (Int × UserProfile)) (uid : Int) : Option UserProfile :=
  ps.lookup uid

/-- `InMemoryStore.get_or_create_profile`: create with empty fields at the
current time when absent (a fresh dict key is appended at the end,
matching Python dict insertion order), return the stored profile. -/
def get_or_create_profile (s : InMemoryStore) (uid : Int) (now : Int) :
    UserProfile × InMemoryStore :=
  match lookupProfile s.profiles uid with
  | some p => (p, s)
  | none =>
    let p : UserProfile := { user_id := uid, name := none, age := none, created_at := now }
    (p, { s with profiles := s.profiles ++ [(uid, p)] })

/-- `InMemoryStore.update_profile_name`: get-or-create, then set `name` on
the stored profile. -/
def update_profile_name (s : InMemoryStore) (uid : Int) (name : String) (now : Int) :
    InMemoryStore :=
  { (get_or_create_profile s uid now).2 with
    profiles := (get_or_create_profile s uid now).2.profiles.map
      (fun q => if q.1 == uid then (q.1, { q.2 with name := some name }) else q) }

/-- `InMemoryStore.update_profile_age`: get-or-create, then set `age` on
the stored profile. -/
def update_profile_age (s : InMemoryStore) (uid : Int) (age : Int) (now : Int) :
    InMemoryStore :=
  { (get_or_create_profile s uid now).2 with
    profiles := (get_or_create_profile s uid now).2.profiles.map
      (fun q => if q.1 == uid then (q.1, { q.2 with age := some age }) else q) }

/-- `InMemoryStore.add_feedback`: append to the log. -/
def add_feedback (s : InMemoryStore) (e : FeedbackEntry) : InMemoryStore :=
  { s with feedback := s.feedback ++ [e] }

/-- Python tail slice `l[-limit:]` for an arbitrary integer `limit`.
For `limit ≥ 1` this is the last `limit` elements (the whole list when
shorter); for `limit = 0` Python's `-0 == 0` makes it `l[0:]`, the whole
list; for `limit < 0` it is `l[(-limit):]`, dropping the first `-limit`
elements. -/
def pyTailSlice {α : Type} (l : List α) (limit : Int) : List α :=
  if 1 ≤ limit then l.drop (l.length - limit.toNat)
  else l.drop (-limit).toNat

/-- `InMemoryStore.get_recent_feedback`: `list(self.feedback[-limit:])`.
The Python default argument is `limit = 10` (see
`get_recent_feedback_default`). -/
def get_recent_feedback (fb : List FeedbackEntry) (limit : Int) : List FeedbackEntry :=
  pyTailSlice fb limit

/-- `get_recent_feedback` at its Python default argument `limit = 10`. -/
def get_recent_feedback_default (fb : List FeedbackEntry) : List FeedbackEntry :=
  get_recent_feedback fb 10

/-- `InMemoryStore.is_blocked`: membership in `blocked_users`. -/
def is_blocked (s : InMemoryStore) (uid : Int) : Bool :=
  s.blocked_users.contains uid

/-! ## Python `int(...)` parsing -/

/-- Value of a non-empty all-digit character list, base 10. -/
def decDigitsVal (cs : List Char) : Option Nat :=
  if cs.isEmpty then none
  else if cs.all Char.isDigit then
    some (cs.foldl (fun acc c => acc * 10 + (c.toNat - 48)) 0)
  else none

/-- Models Python `int(text)` on an already-stripped string: an optional
single `+`/`-` sign followed by one or more decimal digits (digit-group
underscores, non-ASCII digits are not modelled; `register_age` strips the
text before parsing, so surrounding whitespace does not arise). -/
def pyInt (s : String) : Option Int :=
  match s.data with
  | [] => none
  | c :: rest =>
    if c = '+' then (decDigitsVal rest).map (fun n => (n : Int))
    else if c = '-' then (decDigitsVal rest).map (fun n => -(n : Int))
    else (decDigitsVal (c :: rest)).map (fun n => (n : Int))

/-- Python `str.strip()` with no argument: remove leading and trailing
whitespace. -/
def pyStrip (s : String) : String :=
  ⟨((s.data.dropWhile Char.isWhitespace).reverse.dropWhile Char.isWhitespace).reverse⟩

/-- Python `str.endswith(post)` (used on the callback data): the last
`len(post)` characters equal `post`. -/
def pyEndsWith (s post : String) : Bool :=
  s.data.drop (s.data.length - post.data.length) == post.data

/-- Python `str(x)` on an `Optional[str]`: `None` prints as `"None"`
(as in the f-string `f"(@{user.username})"`). -/
def pyStr (o : Option String) : String :=
  match o with
  | none => "None"
  | some u => u

/-- Python truthiness of an `Optional[str]` (`if profile.name:`):
false for `None` and for the empty string. -/
def pyTruthy (o : Option String) : Bool :=
  match o with
  | none => false
  | some u => u ≠ ""

/-- Stand-in for `time.strftime("%Y-%m-%d %H:%M:%S", time.localtime(t))`:
renders the timestamp; the exact text is immaterial to every property
proved below (no claim constrains the rendered time). -/
def strftimeModel (t : Int) : String :=
  toString t

/-- `format_profile`: ID line, `Name:` line when the name is truthy,
`Age:` line when the age is not `None`, `Registered:` line. -/
def format_profile (p : UserProfile) : String :=
  let parts : List String := ["ID: " ++ toString p.user_id]
  let parts := if pyTruthy p.name then parts ++ ["Name: " ++ pyStr p.name] else parts
  let parts := match p.age with
    | some a => parts ++ ["Age: " ++ toString a]
    | none => parts
  let parts := parts ++ ["Registered: " ++ strftimeModel p.created_at]
  String.intercalate "\n" parts

/-! ## Per-user `context.user_data` -/

/-- The keys of `context.user_data` the handlers use.  Python's
`dict.get` returns `None` for an absent key and the code also stores the
literal `None` (`user_data["utility_mode"] = None`); both are `none`. -/
structure UserData where
  pending_feedback : Option String
  pending_broadcast : Option String
  utility_mode : Option String
deriving Repr, DecidableEq

/-- A fresh user's empty `user_data` dict. -/
def UserData.init : UserData :=
  { pending_feedback := none, pending_broadcast := none, utility_mode := none }

/-! ## Handler results -/

/-- Outcome of one handler invocation: the new store, the new user data,
the texts replied/edited to the acting chat (in order), the messages the
bot sent to OTHER chats as `(chat_id, text)` pairs (in order), and the
returned conversation state (`CONV_END` for non-conversation handlers
and terminal transitions). -/
structure HResult where
  store : InMemoryStore
  ud : UserData
  replies : List String
  sent : List (Int × String)
  next : Int
deriving Repr, DecidableEq

/-! ## Plain command handlers -/

/-- `start`: get-or-create the profile; when the stored name is `None`
and the platform `full_name` is truthy (non-empty), backfill the name
from it; reply with the welcome text. -/
def start (s : InMemoryStore) (ud : UserData) (uid : Int) (full_name : String) (now : Int) :
    HResult :=
  let pr := get_or_create_profile s uid now
  let s2 :=
    if pr.1.name = none ∧ full_name ≠ "" then update_profile_name pr.2 uid full_name now
    else pr.2
  { store := s2, ud := ud,
    replies := ["Welcome to the utility bot.\nUse the buttons below or commands:\n/register, /profile, /feedback, /help"],
    sent := [], next := CONV_END }

/-- `profile_command`: get-or-create the profile and reply with its
formatted summary. -/
def profile_command (s : InMemoryStore) (ud : UserData) (uid : Int) (now : Int) : HResult :=
  let pr := get_or_create_profile s uid now
  { store := pr.2, ud := ud, replies := [format_profile pr.1], sent := [], next := CONV_END }

/-! ## Registration conversation -/

/-- `register_start`: get-or-create; prompt depends on whether a truthy
name is already stored; enter `REGISTER_NAME`. -/
def register_start (s : InMemoryStore) (ud : UserData) (uid : Int) (now : Int) : HResult :=
  let pr := get_or_create_profile s uid now
  let reply :=
    if pyTruthy pr.1.name then
      "Your current name is: " ++ pyStr pr.1.name ++ "\nSend a new name or /cancel."
    else "Send your name."
  { store := pr.2, ud := ud, replies := [reply], sent := [], next := REGISTER_NAME }

/-- `register_name`: strip the text; empty re-prompts staying in
`REGISTER_NAME`; otherwise store the name and move to `REGISTER_AGE`. -/
def register_name (s : InMemoryStore) (ud : UserData) (uid : Int) (text : String) (now : Int) :
    HResult :=
  let name_text := pyStrip text
  if name_text = "" then
    { store := s, ud := ud, replies := ["Name cannot be empty. Send your name."],
      sent := [], next := REGISTER_NAME }
  else
    { store := update_profile_name s uid name_text now, ud := ud,
      replies := ["Now send your age as a number."], sent := [], next := REGISTER_AGE }

/-- `register_age`: strip and parse as `int`; parse failure or a value
with `age_val <= 0 or age_val > 120` re-prompts staying in
`REGISTER_AGE`; a valid value is stored, and the handler replies with the
profile summary and ends the conversation. -/
def register_age (s : InMemoryStore) (ud : UserData) (uid : Int) (text : String) (now : Int) :
    HResult :=
  match pyInt (pyStrip text) with
  | none =>
    { store := s, ud := ud, replies := ["Age must be a number. Send it again."],
      sent := [], next := REGISTER_AGE }
  | some age_val =>
    if age_val ≤ 0 ∨ age_val > 120 then
      { store := s, ud := ud, replies := ["Age seems invalid. Send a realistic age."],
        sent := [], next := REGISTER_AGE }
    else
      let s1 := update_profile_age s uid age_val now
      let pr := get_or_create_profile s1 uid now
      { store := pr.2, ud := ud,
        replies := ["Registration completed:\n\n" ++ format_profile pr.1],
        sent := [], next := CONV_END }

/-- `register_cancel`: reply and end; touches neither store nor staged
data. -/
def register_cancel (s : InMemoryStore) (ud : UserData) : HResult :=
  { store := s, ud := ud, replies := ["Registration cancelled."], sent := [], next := CONV_END }

/-! ## Feedback conversation -/

/-- `feedback_start`: prompt and enter `FEEDBACK_TEXT`. -/
def feedback_start (s : InMemoryStore) (ud : UserData) : HResult :=
  { store := s, ud := ud, replies := ["Send your feedback text or /cancel."],
    sent := [], next := FEEDBACK_TEXT }

/-- `feedback_text`: strip; empty re-prompts staying in `FEEDBACK_TEXT`;
otherwise stage the text in `user_data["pending_feedback"]` and move to
`FEEDBACK_CONFIRM` presenting the yes/no keyboard. -/
def feedback_text (s : InMemoryStore) (ud : UserData) (msg : String) : HResult :=
  let text := pyStrip msg
  if text = "" then
    { store := s, ud := ud, replies := ["Feedback cannot be empty. Send your text."],
      sent := [], next := FEEDBACK_TEXT }
  else
    { store := s, ud := { ud with pending_feedback := some text },
      replies := ["Do you want to send this feedback?"], sent := [], next := FEEDBACK_CONFIRM }

/-- The admin notification text of `feedback_decision`. -/
def feedbackNotice (uid : Int) (username : Option String) (text : String) : String :=
  "New feedback from " ++ toString uid ++ " (@" ++ pyStr username ++ "):\n" ++ text

/-- `feedback_decision` (callback `feedback_confirm:yes|no`): with no
staged text, reply "No feedback to send." and end.  On `yes`, append a
`FeedbackEntry` to the log and attempt one send per configured admin id
(each failure only logged — `deliverOk` tells which attempts succeed);
then thank.  On anything else, discard.  Both branches pop the staged
text. -/
def feedback_decision (s : InMemoryStore) (ud : UserData) (data : String) (uid : Int)
    (username : Option String) (authUsers : List Int) (deliverOk : Int → Bool) (now : Int) :
    HResult :=
  match ud.pending_feedback with
  | none =>
    { store := s, ud := ud, replies := ["No feedback to send."], sent := [], next := CONV_END }
  | some text =>
    if pyEndsWith data "yes" then
      let entry : FeedbackEntry :=
        { user_id := uid, username := username, text := text, created_at := now }
      let s1 := add_feedback s entry
      let msgs := (authUsers.filter deliverOk).map (fun a => (a, feedbackNotice uid username text))
      { store := s1, ud := { ud with pending_feedback := none },
        replies := ["Feedback sent. Thank you."], sent := msgs, next := CONV_END }
    else
      { store := s, ud := { ud with pending_feedback := none },
        replies := ["Feedback discarded."], sent := [], next := CONV_END }

/-- `feedback_cancel`: reply, pop the staged text, end. -/
def feedback_cancel (s : InMemoryStore) (ud : UserData) : HResult :=
  { store := s, ud := { ud with pending_feedback := none },
    replies := ["Feedback cancelled."], sent := [], next := CONV_END }

/-! ## Broadcast conversation -/

/-- `broadcast_start`: non-admins are rejected with an authorization
error and the conversation is not entered; admins are prompted and enter
`BROADCAST_TEXT`. -/
def broadcast_start (s : InMemoryStore) (ud : UserData) (isAdmin : Bool) : HResult :=
  if !isAdmin then
    { store := s, ud := ud, replies := ["You are not authorized to broadcast."],
      sent := [], next := CONV_END }
  else
    { store := s, ud := ud, replies := ["Send the broadcast message text or /cancel."],
      sent := [], next := BROADCAST_TEXT }

/-- `broadcast_text`: strip; empty re-prompts staying in
`BROADCAST_TEXT`; otherwise stage in `user_data["pending_broadcast"]` and
move to `BROADCAST_CONFIRM`. -/
def broadcast_text (s : InMemoryStore) (ud : UserData) (msg : String) : HResult :=
  let text := pyStrip msg
  if text = "" then
    { store := s, ud := ud, replies := ["Broadcast text cannot be empty."],
      sent := [], next := BROADCAST_TEXT }
  else
    { store := s, ud := { ud with pending_broadcast := some text },
      replies := ["Send this message to all known users?"], sent := [], next := BROADCAST_CONFIRM }

/-- The fan-out loop of `broadcast_decision`: for each target in snapshot
order, inside try/except: skip silently when blocked; otherwise one
delivery attempt — success increments `sent` (followed by the pacing
sleep), an exception is caught, logged and increments `failed`, and the
loop continues.  Returns `(sent, failed, delivered messages in order)`. -/
def broadcastLoop (isBlocked : Int → Bool) (deliverOk : Int → Bool) (text : String) :
    List Int → Nat × Nat × List (Int × String)
  | [] => (0, 0, [])
  | u :: rest =>
    let r := broadcastLoop isBlocked deliverOk text rest
    if isBlocked u then r
    else if deliverOk u then (r.1 + 1, r.2.1, (u, text) :: r.2.2)
    else (r.1, r.2.1 + 1, r.2.2)

/-- `broadcast_decision` (callback `broadcast_confirm:yes|no`): with no
staged text, reply "No broadcast pending." and end.  Then the confirmer's
authorization is re-checked: a non-admin is rejected ("Not authorized.",
conversation ends, staged text NOT popped).  On `yes`, fan out over the
snapshot `list(store.profiles.keys())` and report the counts; on
anything else, cancel.  Both of these pop the staged text. -/
def broadcast_decision (s : InMemoryStore) (ud : UserData) (data : String) (isAdmin : Bool)
    (deliverOk : Int → Bool) : HResult :=
  match ud.pending_broadcast with
  | none =>
    { store := s, ud := ud, replies := ["No broadcast pending."], sent := [], next := CONV_END }
  | some text =>
    if !isAdmin then
      { store := s, ud := ud, replies := ["Not authorized."], sent := [], next := CONV_END }
    else if pyEndsWith data "yes" then
      let targets := s.profiles.map Prod.fst
      let r := broadcastLoop (fun u => is_blocked s u) deliverOk text targets
      { store := s, ud := { ud with pending_broadcast := none },
        replies := ["Broadcast finished. Sent: " ++ toString r.1 ++ ", failed: " ++ toString r.2.1 ++ "."],
        sent := r.2.2, next := CONV_END }
    else
      { store := s, ud := { ud with pending_broadcast := none },
        replies := ["Broadcast cancelled."], sent := [], next := CONV_END }

/-- `broadcast_cancel`: reply, pop the staged text, end. -/
def broadcast_cancel (s : InMemoryStore) (ud : UserData) : HResult :=
  { store := s, ud := { ud with pending_broadcast := none },
    replies := ["Broadcast cancelled."], sent := [], next := CONV_END }

/-! ## Utility menu -/

/-- `utility_menu_handler` (callbacks `util_echo|dice|random|back`):
`util_echo` sets `user_data["utility_mode"] = "echo"`; `util_dice` and
`util_random` reply with the drawn value (`diceVal`, `randVal` stand for
`random.randint`) and reset the mode to `None`; `util_back` shows the
main menu and resets the mode. -/
def utility_menu_handler (ud : UserData) (data : String) (diceVal randVal : Int) :
    UserData × List String :=
  if data = "util_back" then ({ ud with utility_mode := none }, ["Main menu:"])
  else if data = "util_echo" then
    ({ ud with utility_mode := some "echo" }, ["Send text and I will echo it."])
  else if data = "util_dice" then
    ({ ud with utility_mode := none }, ["Dice rolled: " ++ toString diceVal])
  else if data = "util_random" then
    ({ ud with utility_mode := none }, ["Random number: " ++ toString randVal])
  else (ud, [])

/-- `utility_text_handler` (catch-all free-text handler): when
`utility_mode == "echo"`, reply with the message text verbatim (the mode
is left untouched); otherwise reply with the generic guidance line. -/
def utility_text_handler (ud : UserData) (text : String) : UserData × List String :=
  if ud.utility_mode = some "echo" then (ud, [text])
  else (ud, ["I do not understand. Use /help or /start."])

/-- `admin_show_feedback`: non-admins rejected; otherwise reply with the
ten most recent feedback entries (or "No feedback yet."). -/
def admin_show_feedback (s : InMemoryStore) (ud : UserData) (isAdmin : Bool) : HResult :=
  if !isAdmin then
    { store := s, ud := ud, replies := ["You are not authorized to use this command."],
      sent := [], next := CONV_END }
  else
    let entries := get_recent_feedback s.feedback 10
    if entries.isEmpty then
      { store := s, ud := ud, replies := ["No feedback yet."], sent := [], next := CONV_END }
    else
      let lines := entries.map (fun e =>
        "[" ++ strftimeModel e.created_at ++ "] from " ++ toString e.user_id ++ " (@" ++
          pyStr e.username ++ "):\n" ++ e.text ++ "\n")
      { store := s, ud := ud, replies := [String.intercalate "\n" lines],
        sent := [], next := CONV_END }

/-! ## Per-flow event traces

python-telegram-bot dispatches each update to the first matching handler;
while a `ConversationHandler` has an active conversation for the user,
only the current state's handlers and the fallbacks can consume an update
(`allow_reentry` is off), and an update nothing consumes leaves the flow
untouched.  The step functions below embed exactly this dispatch for one
flow: an event is handled when the flow's current state has a handler for
it (the callback data must also match the registered pattern), `/cancel`
hits the fallbacks of an active conversation, and every other event is a
no-op on the flow's state. -/

/-- An inbound event relevant to one conversation flow. -/
inductive FlowEvent where
  | startCmd
  | textMsg (s : String)
  | confirmCb (data : String)
  | cancelCmd
  | other
deriving Repr, DecidableEq

/-- One user's view of the system while driving a flow: store, user
data, the flow's current conversation state, and all messages sent to
other chats so far. -/
structure FlowState where
  store : InMemoryStore
  ud : UserData
  conv : Int
  sent : List (Int × String)
deriving Repr, DecidableEq

/-- Fold one handler result into the flow state. -/
def applyH (st : FlowState) (r : HResult) : FlowState :=
  { store := r.store, ud := r.ud, conv := r.next, sent := st.sent ++ r.sent }

/-- Dispatch for the feedback conversation. -/
def fbStep (uid : Int) (username : Option String) (authUsers : List Int)
    (deliverOk : Int → Bool) (now : Int) (st : FlowState) (ev : FlowEvent) : FlowState :=
  match ev with
  | .startCmd =>
    if st.conv = CONV_END then applyH st (feedback_start st.store st.ud) else st
  | .textMsg s =>
    if st.conv = FEEDBACK_TEXT then applyH st (feedback_text st.store st.ud s) else st
  | .confirmCb data =>
    if st.conv = FEEDBACK_CONFIRM ∧
        (data = "feedback_confirm:yes" ∨ data = "feedback_confirm:no") then
      applyH st (feedback_decision st.store st.ud data uid username authUsers deliverOk now)
    else st
  | .cancelCmd =>
    if st.conv = CONV_END then st else applyH st (feedback_cancel st.store st.ud)
  | .other => st

/-- Dispatch for the broadcast conversation; `isAdmin` is the acting
user's membership in the configured `Config.AUTH_USERS`, constant for
the process lifetime. -/
def bcStep (isAdmin : Bool) (deliverOk : Int → Bool) (st : FlowState) (ev : FlowEvent) :
    FlowState :=
  match ev with
  | .startCmd =>
    if st.conv = CONV_END then applyH st (broadcast_start st.store st.ud isAdmin) else st
  | .textMsg s =>
    if st.conv = BROADCAST_TEXT then applyH st (broadcast_text st.store st.ud s) else st
  | .confirmCb data =>
    if st.conv = BROADCAST_CONFIRM ∧
        (data = "broadcast_confirm:yes" ∨ data = "broadcast_confirm:no") then
      applyH st (broadcast_decision st.store st.ud data isAdmin deliverOk)
    else st
  | .cancelCmd =>
    if st.conv = CONV_END then st else applyH st (broadcast_cancel st.store st.ud)
  | .other => st

/-- Dispatch for the registration conversation. -/
def regStep (uid : Int) (now : Int) (st : FlowState) (ev : FlowEvent) : FlowState :=
  match ev with
  | .startCmd =>
    if st.conv = CONV_END then applyH st (register_start st.store st.ud uid now) else st
  | .textMsg s =>
    if st.conv = REGISTER_NAME then applyH st (register_name st.store st.ud uid s now)
    else if st.conv = REGISTER_AGE then applyH st (register_age st.store st.ud uid s now)
    else st
  | .confirmCb _ => st
  | .cancelCmd =>
    if st.conv = CONV_END then st else applyH st (register_cancel st.store st.ud)
  | .other => st

/-- Initial flow state: fresh user data, no active conversation. -/
def flowInit (s0 : InMemoryStore) : FlowState :=
  { store := s0, ud := UserData.init, conv := CONV_END, sent := [] }

/-- Run the feedback flow over an event trace. -/
def fbRun (uid : Int) (username : Option String) (authUsers : List Int)
    (deliverOk : Int → Bool) (now : Int) (s0 : InMemoryStore) (evs : List FlowEvent) :
    FlowState :=
  evs.foldl (fbStep uid username authUsers deliverOk now) (flowInit s0)

/-- Run the broadcast flow over an event trace. -/
def bcRun (isAdmin : Bool) (deliverOk : Int → Bool) (s0 : InMemoryStore)
    (evs : List FlowEvent) : FlowState :=
  evs.foldl (bcStep isAdmin deliverOk) (flowInit s0)

/-- Run the registration flow over an event trace. -/
def regRun (uid : Int) (now : Int) (s0 : InMemoryStore) (evs : List FlowEvent) : FlowState :=
  evs.foldl (regStep uid now) (flowInit s0)

/-! ## Helper lemmas -/

/-- A predicate preserved by every step holds after any `foldl`. -/
theorem foldl_preserves {σ ε : Type} (step : σ → ε → σ) (P : σ → Prop)
    (h : ∀ st ev, P st → P (step st ev)) :
    ∀ (evs : List ε) (st : σ), P st → P (evs.foldl step st)
  | [], _, hst => hst
  | e :: es, st, hst => foldl_preserves step P h es (step st e) (h st e hst)

theorem lookup_goc_self (s : InMemoryStore) (uid now : Int) :
    lookupProfile (get_or_create_profile s uid now).2.profiles uid =
      some (get_or_create_profile s uid now).1 := by
  unfold get_or_create_profile
  cases h : lookupProfile s.profiles uid with
  | some p => simp [h]
  | none =>
    unfold lookupProfile at h ⊢
    simp [h, List.lookup_append]

theorem lookup_goc_of_some {s : InMemoryStore} {uid' : Int} {p : UserProfile} (uid now : Int)
    (h : lookupProfile s.profiles uid' = some p) :
    lookupProfile (get_or_create_profile s uid now).2.profiles uid' = some p := by
  unfold get_or_create_profile
  cases hm : lookupProfile s.profiles uid with
  | some q => simpa [hm] using h
  | none =>
    unfold lookupProfile at h ⊢
    simp [hm, List.lookup_append, h]

theorem lookup_goc_ne {s : InMemoryStore} {uid uid' : Int} (now : Int) (h : uid' ≠ uid) :
    lookupProfile (get_or_create_profile s uid now).2.profiles uid' =
      lookupProfile s.profiles uid' := by
  unfold get_or_create_profile
  cases hm : lookupProfile s.profiles uid with
  | some q => simp [hm]
  | none =>
    unfold lookupProfile at hm ⊢
    have e : (uid' == uid) = false := beq_eq_false_iff_ne.mpr h
    simp [hm, List.lookup_append, List.lookup_cons, e]

/-- Effect of the `profiles.map (set field on matching key)` step of the
update operations on an arbitrary lookup. -/
theorem lookupProfile_map_update (ps : List (Int × UserProfile)) (uid uid' : Int)
    (f : UserProfile → UserProfile) :
    lookupProfile (ps.map (fun q => if q.1 == uid then (q.1, f q.2) else q)) uid' =
      if uid' = uid then (lookupProfile ps uid').map f else lookupProfile ps uid' := by
  induction ps with
  | nil => by_cases h : uid' = uid <;> simp [lookupProfile, h]
  | cons q qs ih =>
    obtain ⟨k, v⟩ := q
    by_cases h1 : k = uid
    · by_cases h2 : uid' = k
      · have e4 : uid' = uid := h2.trans h1
        have b2 : (uid' == k) = true := beq_iff_eq.mpr h2
        have b4 : (uid' == uid) = true := beq_iff_eq.mpr e4
        simp [lookupProfile, List.lookup_cons, h1, h2, e4, b2, b4]
      · have e4 : ¬uid' = uid := fun hh => h2 (hh.trans h1.symm)
        have b2 : (uid' == k) = false := beq_eq_false_iff_ne.mpr h2
        have b4 : (uid' == uid) = false := beq_eq_false_iff_ne.mpr e4
        simpa [lookupProfile, List.lookup_cons, h1, h2, e4, b2, b4] using ih
    · by_cases h2 : uid' = k
      · have e4 : ¬uid' = uid := fun hh => h1 (h2.symm.trans hh)
        have b2 : (uid' == k) = true := beq_iff_eq.mpr h2
        simp [lookupProfile, List.lookup_cons, h1, h2, e4, b2]
      · have b2 : (uid' == k) = false := beq_eq_false_iff_ne.mpr h2
        simpa [lookupProfile, List.lookup_cons, h1, h2, b2] using ih

theorem lookupProfile_map_setName (ps : List (Int × UserProfile)) (uid uid' : Int)
    (name : String) :
    lookupProfile
        (ps.map (fun q => if q.1 == uid then (q.1, { q.2 with name := some name }) else q)) uid' =
      if uid' = uid then (lookupProfile ps uid').map (fun v => { v with name := some name })
      else lookupProfile ps uid' :=
  lookupProfile_map_update ps uid uid' (fun v => { v with name := some name })

theorem lookupProfile_map_setAge (ps : List (Int × UserProfile)) (uid uid' : Int) (age : Int) :
    lookupProfile
        (ps.map (fun q => if q.1 == uid then (q.1, { q.2 with age := some age }) else q)) uid' =
      if uid' = uid then (lookupProfile ps uid').map (fun v => { v with age := some age })
      else lookupProfile ps uid' :=
  lookupProfile_map_update ps uid uid' (fun v => { v with age := some age })

theorem lookup_update_name_self (s : InMemoryStore) (uid : Int) (name : String) (now : Int) :
    lookupProfile (update_profile_name s uid name now).profiles uid =
      some { (get_or_create_profile s uid now).1 with name := some name } := by
  show lookupProfile ((get_or_create_profile s uid now).2.profiles.map
      (fun q => if q.1 == uid then (q.1, { q.2 with name := some name }) else q)) uid = _
  rw [lookupProfile_map_setName, if_pos rfl, lookup_goc_self, Option.map_some']

theorem lookup_update_name_ne {uid uid' : Int} (s : InMemoryStore) (name : String) (now : Int)
    (h : uid' ≠ uid) :
    lookupProfile (update_profile_name s uid name now).profiles uid' =
      lookupProfile s.profiles uid' := by
  show lookupProfile ((get_or_create_profile s uid now).2.profiles.map
      (fun q => if q.1 == uid then (q.1, { q.2 with name := some name }) else q)) uid' = _
  rw [lookupProfile_map_setName, if_neg h, lookup_goc_ne now h]

theorem lookup_update_age_self (s : InMemoryStore) (uid age : Int) (now : Int) :
    lookupProfile (update_profile_age s uid age now).profiles uid =
      some { (get_or_create_profile s uid now).1 with age := some age } := by
  show lookupProfile ((get_or_create_profile s uid now).2.profiles.map
      (fun q => if q.1 == uid then (q.1, { q.2 with age := some age }) else q)) uid = _
  rw [lookupProfile_map_setAge, if_pos rfl, lookup_goc_self, Option.map_some']

theorem lookup_update_age_ne {uid uid' : Int} (s : InMemoryStore) (age : Int) (now : Int)
    (h : uid' ≠ uid) :
    lookupProfile (update_profile_age s uid age now).profiles uid' =
      lookupProfile s.profiles uid' := by
  show lookupProfile ((get_or_create_profile s uid now).2.profiles.map
      (fun q => if q.1 == uid then (q.1, { q.2 with age := some age }) else q)) uid' = _
  rw [lookupProfile_map_setAge, if_neg h, lookup_goc_ne now h]

theorem broadcastLoop_counts (isBlocked deliverOk : Int → Bool) (text : String)
    (targets : List Int) :
    (broadcastLoop isBlocked deliverOk text targets).1 =
        targets.countP (fun u => !isBlocked u && deliverOk u) ∧
      (broadcastLoop isBlocked deliverOk text targets).2.1 =
        targets.countP (fun u => !isBlocked u && !deliverOk u) ∧
      (broadcastLoop isBlocked deliverOk text targets).2.2 =
        (targets.filter (fun u => !isBlocked u && deliverOk u)).map (fun u => (u, text)) := by
  induction targets with
  | nil => simp [broadcastLoop]
  | cons u rest ih =>
    obtain ⟨ih1, ih2, ih3⟩ := ih
    by_cases hb : isBlocked u
    · simp [broadcastLoop, hb, List.countP_cons, ih1, ih2, ih3, List.filter_cons]
    · by_cases hd : deliverOk u
      · simp [broadcastLoop, hb, hd, List.countP_cons, ih1, ih2, ih3, List.filter_cons]
      · simp [broadcastLoop, hb, hd, List.countP_cons, ih1, ih2, ih3, List.filter_cons]

theorem broadcastLoop_total (isBlocked deliverOk : Int → Bool) (text : String)
    (targets : List Int) :
    (broadcastLoop isBlocked deliverOk text targets).1 +
        (broadcastLoop isBlocked deliverOk text targets).2.1 +
        targets.countP isBlocked = targets.length := by
  induction targets with
  | nil => simp [broadcastLoop]
  | cons u rest ih =>
    by_cases hb : isBlocked u <;> by_cases hd : deliverOk u <;>
      simp [broadcastLoop, hb, hd, List.countP_cons] <;> omega

/-- The spec's staged-input invariant, feedback flow: staged text is
present exactly in the await-confirmation state. -/
def FbInv (st : FlowState) : Prop :=
  st.ud.pending_feedback.isSome = true ↔ st.conv = FEEDBACK_CONFIRM

/-- The spec's staged-input invariant, broadcast flow, strengthened by
the fact that an active broadcast conversation belongs to an admin
(`Config.AUTH_USERS` is fixed for the process lifetime). -/
def BcInv (isAdmin : Bool) (st : FlowState) : Prop :=
  (st.ud.pending_broadcast.isSome = true ↔ st.conv = BROADCAST_CONFIRM) ∧
    ((st.conv = BROADCAST_TEXT ∨ st.conv = BROADCAST_CONFIRM) → isAdmin = true)

theorem fbStep_inv (uid : Int) (username : Option String) (authUsers : List Int)
    (deliverOk : Int → Bool) (now : Int) (st : FlowState) (ev : FlowEvent)
    (h : FbInv st) : FbInv (fbStep uid username authUsers deliverOk now st ev) := by
  obtain ⟨s, ud, conv, sent⟩ := st
  simp only [FbInv, FEEDBACK_CONFIRM] at h ⊢
  cases ev with
  | startCmd =>
    by_cases hc : conv = (-1 : Int)
    · rw [hc] at h
      simp at h
      simp [fbStep, hc, applyH, feedback_start, FEEDBACK_TEXT, FEEDBACK_CONFIRM, CONV_END, h]
    · simpa [fbStep, CONV_END, hc] using h
  | textMsg s' =>
    by_cases hc : conv = (3 : Int)
    · rw [hc] at h
      simp at h
      by_cases ht : pyStrip s' = "" <;>
        simp [fbStep, hc, applyH, feedback_text, ht, FEEDBACK_TEXT, FEEDBACK_CONFIRM, h]
    · simpa [fbStep, FEEDBACK_TEXT, hc] using h
  | confirmCb data =>
    by_cases hc : conv = (4 : Int) ∧
        (data = "feedback_confirm:yes" ∨ data = "feedback_confirm:no")
    · obtain ⟨t, ht⟩ : ∃ t, ud.pending_feedback = some t := by
        rw [hc.1] at h
        simp at h
        exact Option.isSome_iff_exists.mp (by simp [h])
      by_cases hy : pyEndsWith data "yes" = true <;>
        simp [fbStep, hc, applyH, feedback_decision, ht, hy, CONV_END, FEEDBACK_CONFIRM]
    · simpa [fbStep, FEEDBACK_CONFIRM, hc] using h
  | cancelCmd =>
    by_cases hc : conv = (-1 : Int)
    · simpa [fbStep, CONV_END, hc] using h
    · simp [fbStep, CONV_END, hc, applyH, feedback_cancel]
  | other => simpa [fbStep] using h

theorem bcStep_inv (isAdmin : Bool) (deliverOk : Int → Bool) (st : FlowState) (ev : FlowEvent)
    (h : BcInv isAdmin st) : BcInv isAdmin (bcStep isAdmin deliverOk st ev) := by
  obtain ⟨s, ud, conv, sent⟩ := st
  obtain ⟨h1, h2⟩ := h
  simp only [BROADCAST_CONFIRM, BROADCAST_TEXT] at h1 h2
  simp only [BcInv, BROADCAST_CONFIRM, BROADCAST_TEXT]
  cases ev with
  | startCmd =>
    by_cases hc : conv = (-1 : Int)
    · rw [hc] at h1
      simp at h1
      by_cases ha : isAdmin <;>
        simp [bcStep, hc, applyH, broadcast_start, ha, BROADCAST_TEXT, BROADCAST_CONFIRM,
          CONV_END, h1]
    · simpa [bcStep, CONV_END, hc] using And.intro h1 h2
  | textMsg s' =>
    by_cases hc : conv = (5 : Int)
    · have ha : isAdmin = true := h2 (Or.inl hc)
      rw [hc] at h1
      simp at h1
      by_cases ht : pyStrip s' = "" <;>
        simp [bcStep, hc, applyH, broadcast_text, ht, BROADCAST_TEXT, BROADCAST_CONFIRM, h1, ha]
    · simpa [bcStep, BROADCAST_TEXT, hc] using And.intro h1 h2
  | confirmCb data =>
    by_cases hc : conv = (6 : Int) ∧
        (data = "broadcast_confirm:yes" ∨ data = "broadcast_confirm:no")
    · have ha : isAdmin = true := h2 (Or.inr hc.1)
      obtain ⟨t, ht⟩ : ∃ t, ud.pending_broadcast = some t := by
        rw [hc.1] at h1
        simp at h1
        exact Option.isSome_iff_exists.mp (by simp [h1])
      by_cases hy : pyEndsWith data "yes" = true <;>
        simp [bcStep, hc, applyH, broadcast_decision, ht, hy, ha, CONV_END, BROADCAST_CONFIRM,
          BROADCAST_TEXT]
    · simpa [bcStep, BROADCAST_CONFIRM, hc] using And.intro h1 h2
  | cancelCmd =>
    by_cases hc : conv = (-1 : Int)
    · simpa [bcStep, CONV_END, hc] using And.intro h1 h2
    · simp [bcStep, CONV_END, hc, applyH, broadcast_cancel]
  | other => simpa [bcStep] using And.intro h1 h2

theorem fbRun_inv (uid : Int) (username : Option String) (authUsers : List Int)
    (deliverOk : Int → Bool) (now : Int) (s0 : InMemoryStore) (evs : List FlowEvent) :
    FbInv (fbRun uid username authUsers deliverOk now s0 evs) :=
  foldl_preserves _ FbInv (fun st ev hst => fbStep_inv uid username authUsers deliverOk now st ev hst)
    evs (flowInit s0) (by simp [flowInit, FbInv, UserData.init, CONV_END, FEEDBACK_CONFIRM])

theorem bcRun_inv (isAdmin : Bool) (deliverOk : Int → Bool) (s0 : InMemoryStore)
    (evs : List FlowEvent) :
    BcInv isAdmin (bcRun isAdmin deliverOk s0 evs) :=
  foldl_preserves _ (BcInv isAdmin) (fun st ev hst => bcStep_inv isAdmin deliverOk st ev hst)
    evs (flowInit s0)
    (by simp [flowInit, BcInv, UserData.init, CONV_END, BROADCAST_CONFIRM, BROADCAST_TEXT])

/-! ## Claims -/

/-- C1, counterexample: after selecting the echo utility, the user sends
"ping" (echoed) and then "pong" with no new echo selection; the second
message is echoed as well ("pong", not the guidance line), because
`utility_text_handler` never clears `utility_mode`.  This refutes the
claim that exactly the next free-text message is echoed and the flag is
then cleared. -/
theorem C1_counterexample :
    (utility_text_handler
        (utility_text_handler ((utility_menu_handler UserData.init "util_echo" 1 0).1) "ping").1
        "pong").2 = ["pong"] ∧
      ["pong"] ≠ ["I do not understand. Use /help or /start."] := by
  exact ⟨by decide, by decide⟩

/-- C1, amended: selecting the echo utility sets the echo mode, and while
the mode is set EVERY free-text message is echoed back verbatim with the
mode left in place (the flag is sticky, not single-shot); it is reset
only by a further utility-menu action. -/
theorem C1_echo_sticky (ud : UserData) (text : String) (d r : Int) :
    (utility_menu_handler ud "util_echo" d r).1.utility_mode = some "echo" ∧
      (ud.utility_mode = some "echo" → utility_text_handler ud text = (ud, [text])) := by
  refine ⟨rfl, fun h => ?_⟩
  simp [utility_text_handler, h]

/-- C1 witness: the amended theorem applied at the state right after
selecting echo, echoing "ping" and leaving the mode set. -/
theorem C1_echo_sticky_witness :
    utility_text_handler ((utility_menu_handler UserData.init "util_echo" 1 0).1) "ping" =
      ((utility_menu_handler UserData.init "util_echo" 1 0).1, ["ping"]) :=
  (C1_echo_sticky ((utility_menu_handler UserData.init "util_echo" 1 0).1) "ping" 1 0).2
    (C1_echo_sticky UserData.init "ping" 1 0).1

/-- C2: the broadcast fan-out loop visits every snapshot entry: with
`B` blocked entries and `F` non-blocked entries whose delivery fails,
it returns `sent = S - B - F` and `failed = F` (so
`sent + failed + B = S`), and the delivered messages are exactly the
non-blocked, non-failing entries in snapshot order — no failure aborts
the remaining iteration. -/
theorem C2_fanout_counts (isBlocked deliverOk : Int → Bool) (text : String)
    (targets : List Int) :
    (broadcastLoop isBlocked deliverOk text targets).1 =
        targets.length - targets.countP isBlocked -
          targets.countP (fun u => !isBlocked u && !deliverOk u) ∧
      (broadcastLoop isBlocked deliverOk text targets).2.1 =
        targets.countP (fun u => !isBlocked u && !deliverOk u) ∧
      (broadcastLoop isBlocked deliverOk text targets).1 +
          (broadcastLoop isBlocked deliverOk text targets).2.1 +
          targets.countP isBlocked = targets.length ∧
      (broadcastLoop isBlocked deliverOk text targets).2.2 =
        (targets.filter (fun u => !isBlocked u && deliverOk u)).map (fun u => (u, text)) := by
  have hc := broadcastLoop_counts isBlocked deliverOk text targets
  have ht := broadcastLoop_total isBlocked deliverOk text targets
  exact ⟨by omega, hc.2.1, ht, hc.2.2⟩

/-- C4, counterexample: `get_recent_feedback` with requested limit `k = 0`
returns the WHOLE log (Python `l[-0:]` is `l[0:]`), so on a one-entry log
it returns 1 > 0 entries, refuting "returns at most k entries" for every
requested limit. -/
theorem C4_counterexample :
    get_recent_feedback [{ user_id := 1, username := none, text := "hi", created_at := 0 }] 0 =
        [{ user_id := 1, username := none, text := "hi", created_at := 0 }] ∧
      ¬((get_recent_feedback
          [{ user_id := 1, username := none, text := "hi", created_at := 0 }] 0).length ≤ 0) := by
  exact ⟨by decide, by decide⟩

/-- C4, amended: for every requested limit `k ≥ 1` the recent-feedback
query returns at most `k` entries, as a suffix of the log (hence in
original chronological/insertion order, the oldest of the requested tail
first), and returns the entire log exactly when the log size is at most
`k`; the default limit is 10. -/
theorem C4_get_recent (fb : List FeedbackEntry) (k : Int) (hk : 1 ≤ k) :
    (get_recent_feedback fb k).length ≤ k.toNat ∧
      (get_recent_feedback fb k) <:+ fb ∧
      (fb.length ≤ k.toNat → get_recent_feedback fb k = fb) ∧
      get_recent_feedback_default fb = get_recent_feedback fb 10 := by
  unfold get_recent_feedback pyTailSlice
  rw [if_pos hk]
  refine ⟨?_, List.drop_suffix _ _, fun hle => ?_, rfl⟩
  · simp only [List.length_drop]
    omega
  · have h0 : fb.length - k.toNat = 0 := by omega
    simp [h0]

/-- C4 witness: the amended theorem at a one-entry log and `k = 1`. -/
theorem C4_get_recent_witness :
    (get_recent_feedback [{ user_id := 1, username := none, text := "hi", created_at := 0 }] 1).length ≤
        (1 : Int).toNat ∧
      (get_recent_feedback [{ user_id := 1, username := none, text := "hi", created_at := 0 }] 1) <:+
        [{ user_id := 1, username := none, text := "hi", created_at := 0 }] ∧
      (([{ user_id := 1, username := none, text := "hi", created_at := 0 }] :
          List FeedbackEntry).length ≤ (1 : Int).toNat →
        get_recent_feedback [{ user_id := 1, username := none, text := "hi", created_at := 0 }] 1 =
          [{ user_id := 1, username := none, text := "hi", created_at := 0 }]) ∧
      get_recent_feedback_default [{ user_id := 1, username := none, text := "hi", created_at := 0 }] =
        get_recent_feedback [{ user_id := 1, username := none, text := "hi", created_at := 0 }] 10 :=
  C4_get_recent [{ user_id := 1, username := none, text := "hi", created_at := 0 }] 1 (by decide)

/-- C6: in the registration age step, text that does not parse as an
integer, or parses outside 1–120, re-prompts, stays in `REGISTER_AGE`
and leaves the store (hence every profile's age) unchanged; text parsing
to `v` with `1 ≤ v ≤ 120` stores the age on the profile, produces the
profile summary, and ends the conversation. -/
theorem C6_register_age (s : InMemoryStore) (ud : UserData) (uid : Int) (text : String)
    (now : Int) :
    (pyInt (pyStrip text) = none →
      register_age s ud uid text now =
        { store := s, ud := ud, replies := ["Age must be a number. Send it again."],
          sent := [], next := REGISTER_AGE }) ∧
    (∀ v : Int, pyInt (pyStrip text) = some v → (v ≤ 0 ∨ v > 120) →
      register_age s ud uid text now =
        { store := s, ud := ud, replies := ["Age seems invalid. Send a realistic age."],
          sent := [], next := REGISTER_AGE }) ∧
    (∀ v : Int, pyInt (pyStrip text) = some v → 1 ≤ v → v ≤ 120 →
      (register_age s ud uid text now).next = CONV_END ∧
      ∃ p : UserProfile,
        lookupProfile (register_age s ud uid text now).store.profiles uid = some p ∧
          p.age = some v ∧
          (register_age s ud uid text now).replies =
            ["Registration completed:\n\n" ++ format_profile p]) := by
  refine ⟨fun h => by simp [register_age, h], fun v hv hr => ?_, fun v hv h1 h2 => ?_⟩
  · simp only [register_age, hv]
    rw [if_pos hr]
  · have hr : ¬(v ≤ 0 ∨ v > 120) := by omega
    have hg : get_or_create_profile (update_profile_age s uid v now) uid now =
        ({ (get_or_create_profile s uid now).1 with age := some v },
          update_profile_age s uid v now) := by
      unfold get_or_create_profile
      rw [lookup_update_age_self]
      rfl
    refine ⟨by simp [register_age, hv, hr, hg], ?_⟩
    refine ⟨{ (get_or_create_profile s uid now).1 with age := some v }, ?_, rfl, ?_⟩
    · simp [register_age, hv, hr, hg, lookup_update_age_self]
    · simp [register_age, hv, hr, hg]

/-- C6 witness: the theorem applied at a fresh store with the inputs
"abc" (parse failure), "200" (out of range) and "35" (valid). -/
theorem C6_register_age_witness :
    register_age { profiles := [], feedback := [], blocked_users := [] } UserData.init 1 "abc" 0 =
        { store := { profiles := [], feedback := [], blocked_users := [] }, ud := UserData.init,
          replies := ["Age must be a number. Send it again."], sent := [], next := REGISTER_AGE } ∧
      register_age { profiles := [], feedback := [], blocked_users := [] } UserData.init 1 "200" 0 =
        { store := { profiles := [], feedback := [], blocked_users := [] }, ud := UserData.init,
          replies := ["Age seems invalid. Send a realistic age."], sent := [],
          next := REGISTER_AGE } ∧
      (register_age { profiles := [], feedback := [], blocked_users := [] } UserData.init 1 "35" 0).next =
        CONV_END :=
  ⟨(C6_register_age { profiles := [], feedback := [], blocked_users := [] } UserData.init 1
      "abc" 0).1 (by decide),
    ((C6_register_age { profiles := [], feedback := [], blocked_users := [] } UserData.init 1
      "200" 0).2.1 200 (by decide) (by decide)),
    ((C6_register_age { profiles := [], feedback := [], blocked_users := [] } UserData.init 1
      "35" 0).2.2 35 (by decide) (by decide) (by decide)).1⟩

/-- C7: the broadcast flow is authorization-gated at both ends: a
non-admin `/broadcast` is rejected with the authorization error and the
conversation is not entered (state `CONV_END`, nothing staged, store
untouched, nothing sent); and at the confirmation step, with staged text
present, a non-admin confirmer is rejected with "Not authorized." and no
fan-out happens (nothing sent, store untouched, conversation ends). -/
theorem C7_broadcast_auth (s : InMemoryStore) (ud : UserData) :
    broadcast_start s ud false =
        { store := s, ud := ud, replies := ["You are not authorized to broadcast."],
          sent := [], next := CONV_END } ∧
      (∀ (data : String) (deliverOk : Int → Bool) (t : String),
        ud.pending_broadcast = some t →
        broadcast_decision s ud data false deliverOk =
          { store := s, ud := ud, replies := ["Not authorized."], sent := [],
            next := CONV_END }) := by
  refine ⟨by simp [broadcast_start], fun data deliverOk t ht => ?_⟩
  simp [broadcast_decision, ht]

/-- C7 witness: the theorem at a user-data with staged text "Hello" and
the affirmative callback. -/
theorem C7_broadcast_auth_witness :
    broadcast_start { profiles := [], feedback := [], blocked_users := [] }
        { UserData.init with pending_broadcast := some "Hello" } false =
        { store := { profiles := [], feedback := [], blocked_users := [] },
          ud := { UserData.init with pending_broadcast := some "Hello" },
          replies := ["You are not authorized to broadcast."], sent := [], next := CONV_END } ∧
      broadcast_decision { profiles := [], feedback := [], blocked_users := [] }
        { UserData.init with pending_broadcast := some "Hello" } "broadcast_confirm:yes" false
        (fun _ => true) =
        { store := { profiles := [], feedback := [], blocked_users := [] },
          ud := { UserData.init with pending_broadcast := some "Hello" },
          replies := ["Not authorized."], sent := [], next := CONV_END } :=
  ⟨(C7_broadcast_auth { profiles := [], feedback := [], blocked_users := [] }
      { UserData.init with pending_broadcast := some "Hello" }).1,
    (C7_broadcast_auth { profiles := [], feedback := [], blocked_users := [] }
      { UserData.init with pending_broadcast := some "Hello" }).2
      "broadcast_confirm:yes" (fun _ => true) "Hello" rfl⟩

/-- C10: a feedback or broadcast confirmation callback processed with no
staged text replies that nothing is pending, appends no feedback entry,
sends no messages, leaves store and user data unchanged, and ends the
conversation. -/
theorem C10_no_pending (s : InMemoryStore) (ud : UserData) (data : String) (uid : Int)
    (username : Option String) (authUsers : List Int) (deliverOk : Int → Bool) (now : Int)
    (isAdmin : Bool) :
    (ud.pending_feedback = none →
      feedback_decision s ud data uid username authUsers deliverOk now =
        { store := s, ud := ud, replies := ["No feedback to send."], sent := [],
          next := CONV_END }) ∧
      (ud.pending_broadcast = none →
        broadcast_decision s ud data isAdmin deliverOk =
          { store := s, ud := ud, replies := ["No broadcast pending."], sent := [],
            next := CONV_END }) := by
  exact ⟨fun h => by simp [feedback_decision, h], fun h => by simp [broadcast_decision, h]⟩

/-- C10 witness: both handlers at fresh user data (nothing staged). -/
theorem C10_no_pending_witness :
    feedback_decision { profiles := [], feedback := [], blocked_users := [] } UserData.init
        "feedback_confirm:yes" 1 none [] (fun _ => true) 0 =
        { store := { profiles := [], feedback := [], blocked_users := [] }, ud := UserData.init,
          replies := ["No feedback to send."], sent := [], next := CONV_END } ∧
      broadcast_decision { profiles := [], feedback := [], blocked_users := [] } UserData.init
        "broadcast_confirm:yes" true (fun _ => true) =
        { store := { profiles := [], feedback := [], blocked_users := [] }, ud := UserData.init,
          replies := ["No broadcast pending."], sent := [], next := CONV_END } :=
  ⟨(C10_no_pending { profiles := [], feedback := [], blocked_users := [] } UserData.init
      "feedback_confirm:yes" 1 none [] (fun _ => true) 0 true).1 rfl,
    (C10_no_pending { profiles := [], feedback := [], blocked_users := [] } UserData.init
      "broadcast_confirm:yes" 1 none [] (fun _ => true) 0 true).2 rfl⟩

/-- C3: after every handled event of a user's feedback flow and of a
user's broadcast flow (the confirmer's admin status is fixed for the
process lifetime, as `Config.AUTH_USERS` is static configuration),
staged input is present if and only if that flow is in its
await-confirmation state. -/
theorem C3_staged_iff_confirm (uid : Int) (username : Option String) (authUsers : List Int)
    (deliverOk : Int → Bool) (now : Int) (s0 : InMemoryStore) (evs : List FlowEvent)
    (isAdmin : Bool) :
    ((fbRun uid username authUsers deliverOk now s0 evs).ud.pending_feedback.isSome = true ↔
      (fbRun uid username authUsers deliverOk now s0 evs).conv = FEEDBACK_CONFIRM) ∧
      ((bcRun isAdmin deliverOk s0 evs).ud.pending_broadcast.isSome = true ↔
        (bcRun isAdmin deliverOk s0 evs).conv = BROADCAST_CONFIRM) :=
  ⟨fbRun_inv uid username authUsers deliverOk now s0 evs,
    (bcRun_inv isAdmin deliverOk s0 evs).1⟩

/-- C8: answering the confirmation step with the negative choice always
discards the staged input: no feedback entry is appended, no message is
sent, the staged text is cleared and the conversation returns to idle —
unconditionally for feedback, and for broadcast with an admin confirmer;
the last conjunct shows the broadcast await-confirmation state is only
ever reached with `isAdmin = true` (the admin set being fixed), so the
admin hypothesis covers every reachable confirmation. -/
theorem C8_negative_discards (s : InMemoryStore) (ud : UserData) (uid : Int)
    (username : Option String) (authUsers : List Int) (deliverOk : Int → Bool) (now : Int) :
    (∀ t, ud.pending_feedback = some t →
      feedback_decision s ud "feedback_confirm:no" uid username authUsers deliverOk now =
        { store := s, ud := { ud with pending_feedback := none },
          replies := ["Feedback discarded."], sent := [], next := CONV_END }) ∧
      (∀ t, ud.pending_broadcast = some t →
        broadcast_decision s ud "broadcast_confirm:no" true deliverOk =
          { store := s, ud := { ud with pending_broadcast := none },
            replies := ["Broadcast cancelled."], sent := [], next := CONV_END }) ∧
      (∀ (isAdmin : Bool) (s1 : InMemoryStore) (evs : List FlowEvent),
        (bcRun isAdmin deliverOk s1 evs).conv = BROADCAST_CONFIRM → isAdmin = true) := by
  have hno : pyEndsWith "feedback_confirm:no" "yes" = false := by decide
  have hno2 : pyEndsWith "broadcast_confirm:no" "yes" = false := by decide
  refine ⟨fun t ht => ?_, fun t ht => ?_, fun isAdmin s1 evs hconv => ?_⟩
  · simp [feedback_decision, ht, hno]
  · simp [broadcast_decision, ht, hno2]
  · exact (bcRun_inv isAdmin deliverOk s1 evs).2 (Or.inr hconv)

/-- C8 witness: both decisions at staged texts, and the reachability
conjunct at the trace `/broadcast` then "Hello" by an admin. -/
theorem C8_negative_discards_witness :
    feedback_decision { profiles := [], feedback := [], blocked_users := [] }
        { pending_feedback := some "fb", pending_broadcast := some "bc", utility_mode := none }
        "feedback_confirm:no" 1 none [] (fun _ => true) 0 =
        { store := { profiles := [], feedback := [], blocked_users := [] },
          ud := { pending_feedback := none, pending_broadcast := some "bc", utility_mode := none },
          replies := ["Feedback discarded."], sent := [], next := CONV_END } ∧
      broadcast_decision { profiles := [], feedback := [], blocked_users := [] }
        { pending_feedback := some "fb", pending_broadcast := some "bc", utility_mode := none }
        "broadcast_confirm:no" true (fun _ => true) =
        { store := { profiles := [], feedback := [], blocked_users := [] },
          ud := { pending_feedback := some "fb", pending_broadcast := none, utility_mode := none },
          replies := ["Broadcast cancelled."], sent := [], next := CONV_END } ∧
      (true : Bool) = true :=
  ⟨((C8_negative_discards { profiles := [], feedback := [], blocked_users := [] }
      { pending_feedback := some "fb", pending_broadcast := some "bc", utility_mode := none }
      1 none [] (fun _ => true) 0).1 "fb" rfl),
    ((C8_negative_discards { profiles := [], feedback := [], blocked_users := [] }
      { pending_feedback := some "fb", pending_broadcast := some "bc", utility_mode := none }
      1 none [] (fun _ => true) 0).2.1 "bc" rfl),
    ((C8_negative_discards { profiles := [], feedback := [], blocked_users := [] }
      { pending_feedback := some "fb", pending_broadcast := some "bc", utility_mode := none }
      1 none [] (fun _ => true) 0).2.2 true
      { profiles := [], feedback := [], blocked_users := [] }
      [FlowEvent.startCmd, FlowEvent.textMsg "Hello"] (by decide))⟩

/-- C9: `/cancel` during registration resets the conversation to idle and
itself mutates nothing (the cancel handler and the cancel step return the
store untouched from any state); commits from earlier steps are durable:
after `/register` and a valid name, cancelling at the age step leaves the
conversation idle, the store exactly as the name step left it, and the
stored name in place. -/
theorem C9_cancel_durable (s : InMemoryStore) (ud : UserData) (uid now : Int)
    (name : String) (st : FlowState) :
    (register_cancel s ud).store = s ∧
      (register_cancel s ud).next = CONV_END ∧
      (regStep uid now st FlowEvent.cancelCmd).store = st.store ∧
      (pyStrip name ≠ "" →
        (regStep uid now (regRun uid now s [FlowEvent.startCmd, FlowEvent.textMsg name])
            FlowEvent.cancelCmd).conv = CONV_END ∧
          (regStep uid now (regRun uid now s [FlowEvent.startCmd, FlowEvent.textMsg name])
              FlowEvent.cancelCmd).store =
            (regRun uid now s [FlowEvent.startCmd, FlowEvent.textMsg name]).store ∧
          ∃ p : UserProfile,
            lookupProfile
                (regStep uid now (regRun uid now s [FlowEvent.startCmd, FlowEvent.textMsg name])
                  FlowEvent.cancelCmd).store.profiles uid = some p ∧
              p.name = some (pyStrip name)) := by
  refine ⟨rfl, rfl, ?_, fun hn => ?_⟩
  · by_cases hc : st.conv = (-1 : Int) <;>
      simp [regStep, CONV_END, hc, applyH, register_cancel]
  · have hrun : regRun uid now s [FlowEvent.startCmd, FlowEvent.textMsg name] =
        { store := update_profile_name (get_or_create_profile s uid now).2 uid (pyStrip name) now,
          ud := UserData.init, conv := REGISTER_AGE, sent := [] } := by
      simp [regRun, regStep, flowInit, applyH, register_start, register_name, CONV_END,
        REGISTER_NAME, REGISTER_AGE, hn]
    have hcan : regStep uid now
        { store := update_profile_name (get_or_create_profile s uid now).2 uid (pyStrip name) now,
          ud := UserData.init, conv := REGISTER_AGE, sent := [] } FlowEvent.cancelCmd =
        { store := update_profile_name (get_or_create_profile s uid now).2 uid (pyStrip name) now,
          ud := UserData.init, conv := CONV_END, sent := [] } := by
      simp [regStep, CONV_END, REGISTER_AGE, applyH, register_cancel]
    rw [hrun, hcan]
    exact ⟨rfl, rfl, ⟨_, lookup_update_name_self _ uid (pyStrip name) now, rfl⟩⟩

/-- C9 witness: the theorem at a fresh store, user 1, name "Alice". -/
theorem C9_cancel_durable_witness :
    (regStep 1 0 (regRun 1 0 { profiles := [], feedback := [], blocked_users := [] }
        [FlowEvent.startCmd, FlowEvent.textMsg "Alice"]) FlowEvent.cancelCmd).conv = CONV_END ∧
      ∃ p : UserProfile,
        lookupProfile
            (regStep 1 0 (regRun 1 0 { profiles := [], feedback := [], blocked_users := [] }
              [FlowEvent.startCmd, FlowEvent.textMsg "Alice"]) FlowEvent.cancelCmd).store.profiles
            1 = some p ∧
          p.name = some (pyStrip "Alice") := by
  have h := (C9_cancel_durable { profiles := [], feedback := [], blocked_users := [] }
    UserData.init 1 0 "Alice"
    (flowInit { profiles := [], feedback := [], blocked_users := [] })).2.2.2 (by decide)
  exact ⟨h.1, h.2.2⟩

/-- C5, counterexample: the `/start` handler backfills a missing display
name from the platform full name, mutating an existing profile's name
field outside the registration name/age steps: profile 1 has name `none`
before `/start` and name `some "Alice"` after. -/
theorem C5_counterexample :
    lookupProfile
        ({ profiles := [(1, { user_id := 1, name := none, age := some 5, created_at := 0 })],
            feedback := [], blocked_users := [] } : InMemoryStore).profiles 1 =
      some { user_id := 1, name := none, age := some 5, created_at := 0 } ∧
      lookupProfile
          ((start
              { profiles := [(1, { user_id := 1, name := none, age := some 5, created_at := 0 })],
                feedback := [], blocked_users := [] }
              UserData.init 1 "Alice" 7).store).profiles 1 =
        some { user_id := 1, name := some "Alice", age := some 5, created_at := 0 } ∧
      (some "Alice" : Option String) ≠ none :=
  ⟨by decide, by decide, by decide⟩

/-- C5, amended: no handler deletes a profile, and name/age are mutated
only by the registration name/age steps and by `/start`'s first-contact
name backfill: every other modelled handler preserves every existing
profile exactly; `/start` preserves age, identity and creation time,
never overwrites an already-set name, and leaves other users' profiles
untouched; and the registration steps leave other users' profiles
untouched. -/
theorem C5_frame (s : InMemoryStore) (ud : UserData) (uid uid' now : Int) (p : UserProfile)
    (full_name msg data : String) (isAdmin : Bool) (username : Option String)
    (authUsers : List Int) (deliverOk : Int → Bool) :
    (lookupProfile s.profiles uid' = some p →
      lookupProfile (profile_command s ud uid now).store.profiles uid' = some p ∧
      lookupProfile (register_start s ud uid now).store.profiles uid' = some p ∧
      lookupProfile (register_cancel s ud).store.profiles uid' = some p ∧
      lookupProfile (feedback_start s ud).store.profiles uid' = some p ∧
      lookupProfile (feedback_text s ud msg).store.profiles uid' = some p ∧
      lookupProfile
          (feedback_decision s ud data uid username authUsers deliverOk now).store.profiles
          uid' = some p ∧
      lookupProfile (feedback_cancel s ud).store.profiles uid' = some p ∧
      lookupProfile (broadcast_start s ud isAdmin).store.profiles uid' = some p ∧
      lookupProfile (broadcast_text s ud msg).store.profiles uid' = some p ∧
      lookupProfile (broadcast_decision s ud data isAdmin deliverOk).store.profiles uid' = some p ∧
      lookupProfile (broadcast_cancel s ud).store.profiles uid' = some p ∧
      lookupProfile (admin_show_feedback s ud isAdmin).store.profiles uid' = some p) ∧
      (lookupProfile s.profiles uid' = some p →
        ∃ p' : UserProfile,
          lookupProfile (start s ud uid full_name now).store.profiles uid' = some p' ∧
            p'.age = p.age ∧ p'.user_id = p.user_id ∧ p'.created_at = p.created_at ∧
            (p.name ≠ none → p'.name = p.name) ∧ (uid' ≠ uid → p' = p)) ∧
      (uid' ≠ uid → lookupProfile s.profiles uid' = some p →
        lookupProfile (register_name s ud uid msg now).store.profiles uid' = some p ∧
          lookupProfile (register_age s ud uid msg now).store.profiles uid' = some p) := by
  refine ⟨fun h => ?_, fun h => ?_, fun hne h => ?_⟩
  · refine ⟨lookup_goc_of_some uid now h, lookup_goc_of_some uid now h, h, h, ?_, ?_, h, ?_, ?_,
      ?_, h, ?_⟩
    · simp only [feedback_text]
      split <;> exact h
    · simp only [feedback_decision]
      split
      · exact h
      · split <;> exact h
    · simp only [broadcast_start]
      split <;> exact h
    · simp only [broadcast_text]
      split <;> exact h
    · simp only [broadcast_decision]
      split
      · exact h
      · split
        · exact h
        · split <;> exact h
    · simp only [admin_show_feedback]
      split
      · exact h
      · split <;> exact h
  · by_cases huid : uid' = uid
    · rw [huid] at h ⊢
      have hg : get_or_create_profile s uid now = (p, s) := by
        unfold get_or_create_profile
        rw [h]
      by_cases hcond : p.name = none ∧ full_name ≠ ""
      · have hl := lookup_update_name_self s uid full_name now
        rw [hg] at hl
        refine ⟨{ p with name := some full_name }, ?_, rfl, rfl, rfl,
          fun hnn => absurd hcond.1 hnn, fun hne => absurd rfl hne⟩
        simp only [start, hg]
        rw [if_pos hcond]
        exact hl
      · refine ⟨p, ?_, rfl, rfl, rfl, fun _ => rfl, fun _ => rfl⟩
        simp only [start, hg]
        rw [if_neg hcond]
        exact h
    · refine ⟨p, ?_, rfl, rfl, rfl, fun _ => rfl, fun _ => rfl⟩
      simp only [start]
      by_cases hcond : (get_or_create_profile s uid now).1.name = none ∧ full_name ≠ ""
      · rw [if_pos hcond, lookup_update_name_ne _ full_name now huid]
        exact lookup_goc_of_some uid now h
      · rw [if_neg hcond]
        exact lookup_goc_of_some uid now h
  · constructor
    · simp only [register_name]
      by_cases hb : pyStrip msg = ""
      · rw [if_pos hb]
        exact h
      · rw [if_neg hb]
        rw [lookup_update_name_ne s (pyStrip msg) now hne]
        exact h
    · simp only [register_age]
      cases hv : pyInt (pyStrip msg) with
      | none => exact h
      | some v =>
        dsimp only
        by_cases hr : v ≤ 0 ∨ v > 120
        · rw [if_pos hr]
          exact h
        · rw [if_neg hr]
          have h1 : lookupProfile (update_profile_age s uid v now).profiles uid' = some p := by
            rw [lookup_update_age_ne s v now hne]
            exact h
          exact lookup_goc_of_some uid now h1

/-- C5 witness: the frame theorem at a store holding profile 1, acted on
by user 2 (`/profile`, `/start`, registration name step). -/
theorem C5_frame_witness :
    lookupProfile
        (profile_command
          { profiles := [(1, { user_id := 1, name := some "N", age := some 30, created_at := 0 })],
            feedback := [], blocked_users := [] } UserData.init 2 9).store.profiles 1 =
      some { user_id := 1, name := some "N", age := some 30, created_at := 0 } ∧
      (∃ p' : UserProfile,
        lookupProfile
            (start
              { profiles := [(1, { user_id := 1, name := some "N", age := some 30, created_at := 0 })],
                feedback := [], blocked_users := [] } UserData.init 2 "Bob" 9).store.profiles 1 =
          some p' ∧
          p'.age = ({ user_id := 1, name := some "N", age := some 30, created_at := 0 } : UserProfile).age ∧
          p'.user_id = ({ user_id := 1, name := some "N", age := some 30, created_at := 0 } : UserProfile).user_id ∧
          p'.created_at = ({ user_id := 1, name := some "N", age := some 30, created_at := 0 } : UserProfile).created_at ∧
          (({ user_id := 1, name := some "N", age := some 30, created_at := 0 } : UserProfile).name ≠ none →
            p'.name = ({ user_id := 1, name := some "N", age := some 30, created_at := 0 } : UserProfile).name) ∧
          ((1 : Int) ≠ 2 → p' = { user_id := 1, name := some "N", age := some 30, created_at := 0 })) ∧
      lookupProfile
          (register_name
            { profiles := [(1, { user_id := 1, name := some "N", age := some 30, created_at := 0 })],
              feedback := [], blocked_users := [] } UserData.init 2 "Bob" 9).store.profiles 1 =
        some { user_id := 1, name := some "N", age := some 30, created_at := 0 } :=
  ⟨((C5_frame
      { profiles := [(1, { user_id := 1, name := some "N", age := some 30, created_at := 0 })],
        feedback := [], blocked_users := [] } UserData.init 2 1 9
      { user_id := 1, name := some "N", age := some 30, created_at := 0 }
      "Bob" "Bob" "feedback_confirm:yes" true none [] (fun _ => true)).1 (by decide)).1,
    ((C5_frame
      { profiles := [(1, { user_id := 1, name := some "N", age := some 30, created_at := 0 })],
        feedback := [], blocked_users := [] } UserData.init 2 1 9
      { user_id := 1, name := some "N", age := some 30, created_at := 0 }
      "Bob" "Bob" "feedback_confirm:yes" true none [] (fun _ => true)).2.1 (by decide)),
    (((C5_frame
      { profiles := [(1, { user_id := 1, name := some "N", age := some 30, created_at := 0 })],
        feedback := [], blocked_users := [] } UserData.init 2 1 9
      { user_id := 1, name := some "N", age := some 30, created_at := 0 }
      "Bob" "Bob" "feedback_confirm:yes" true none [] (fun _ => true)).2.2 (by decide) (by decide)).1)⟩
